import Mathlib

set_option maxRecDepth 8000

/-!
Shallow embedding of the SciDx rexec broker: the envelope-splitting helper
(frames.py), the token validator (auth.py), and the per-message dispatch
logic of the broker's proxy loop (broker.py). Frames are ZMQ byte strings,
modelled as lists of byte values.
-/

/-- A ZMQ message frame: a byte string, modelled as a list of byte values. -/
abbrev Frame := List Nat

/-- Model of Python strict UTF-8 decoding to a character list, as used by
body[0].decode in broker.py: a byte-at-a-time DFA over the RFC 3629
grammar. `need` counts outstanding continuation bytes, `acc` holds the
partial code point, and `lo`/`hi` bound the next byte (tight on the first
continuation byte, which is what rejects overlong forms, surrogate code
points and code points above 0x10FFFF, exactly as Python's strict decoder
does). -/
def utf8Chars? : List Nat → Nat → Nat → Nat → Nat → Option (List Char)
  | [], 0, _, _, _ => some []
  | [], _ + 1, _, _, _ => none
  | b :: rest, 0, _, _, _ =>
    if b ≤ 0x7F then (utf8Chars? rest 0 0 0 0).map (fun cs => Char.ofNat b :: cs)
    else if 0xC2 ≤ b ∧ b ≤ 0xDF then utf8Chars? rest 1 (b % 32) 0x80 0xBF
    else if b = 0xE0 then utf8Chars? rest 2 (b % 16) 0xA0 0xBF
    else if 0xE1 ≤ b ∧ b ≤ 0xEC then utf8Chars? rest 2 (b % 16) 0x80 0xBF
    else if b = 0xED then utf8Chars? rest 2 (b % 16) 0x80 0x9F
    else if 0xEE ≤ b ∧ b ≤ 0xEF then utf8Chars? rest 2 (b % 16) 0x80 0xBF
    else if b = 0xF0 then utf8Chars? rest 3 (b % 8) 0x90 0xBF
    else if 0xF1 ≤ b ∧ b ≤ 0xF3 then utf8Chars? rest 3 (b % 8) 0x80 0xBF
    else if b = 0xF4 then utf8Chars? rest 3 (b % 8) 0x80 0x8F
    else none
  | b :: rest, need + 1, acc, lo, hi =>
    if lo ≤ b ∧ b ≤ hi then
      if need = 0 then
        (utf8Chars? rest 0 0 0 0).map (fun cs => Char.ofNat (acc * 64 + b % 64) :: cs)
      else utf8Chars? rest need (acc * 64 + b % 64) 0x80 0xBF
    else none

/-- Model of Python bytes.decode with the utf-8 codec: some string on
valid UTF-8 input, none exactly when a UnicodeDecodeError would be
raised. -/
def utf8Decode? (bs : List Nat) : Option String :=
  (utf8Chars? bs 0 0 0 0).map (fun cs => String.mk cs)

/-- Model of UTF-8 encoding for one code point, as in Python str.encode. -/
def utf8EncodeCharNat (n : Nat) : List Nat :=
  if n ≤ 0x7F then [n]
  else if n ≤ 0x7FF then [0xC0 + n / 64, 0x80 + n % 64]
  else if n ≤ 0xFFFF then [0xE0 + n / 4096, 0x80 + n / 64 % 64, 0x80 + n % 64]
  else [0xF0 + n / 262144, 0x80 + n / 4096 % 64, 0x80 + n / 64 % 64, 0x80 + n % 64]

/-- Model of Python str.encode with the utf-8 codec: the UTF-8 bytes of a
string, used for user_id.encode in broker.py and for the byte-string
literals of the source. -/
def utf8Encode (s : String) : List Nat :=
  s.data.flatMap (fun c => utf8EncodeCharNat c.toNat)

/-- Embedding of split_envelope from frames.py: scan the frames for the
first empty frame; return the frames before it, its index, and the frames
after it. When no empty frame exists, return an empty envelope, no index,
and the whole list as body, exactly as the Python fall-through return
does. -/
def split_envelope : List Frame → List Frame × Option Nat × List Frame
  | [] => ([], none, [])
  | f :: rest =>
    if f = ([] : Frame) then ([], some 0, rest)
    else
      match split_envelope rest with
      | (env, some i, body) => (f :: env, some (i + 1), body)
      | (_, none, _) => ([], none, f :: rest)

/-- Model of Python str.strip with no argument: drop whitespace from both
ends of the string. -/
def pyStrip (s : String) : String :=
  String.mk (((s.data.dropWhile Char.isWhitespace).reverse.dropWhile Char.isWhitespace).reverse)

/-- Outcome of the HTTP POST issued by validate_token in auth.py, as the
function observes it: either requests raised a RequestException, or a
response arrived carrying a status code and an optional sub claim in its
JSON body. -/
inductive AuthResponse where
  | requestException : AuthResponse
  | httpResponse (status : Nat) (sub : Option String) : AuthResponse
deriving DecidableEq

/-- Embedding of validate_token from auth.py, as a function of the HTTP
outcome: a RequestException yields None; a status other than 200 yields
None; an absent or whitespace-only sub claim yields None; otherwise the
stripped sub claim is returned. -/
def validate_token : AuthResponse → Option String
  | AuthResponse.requestException => none
  | AuthResponse.httpResponse status sub =>
    if status ≠ 200 then none
    else
      let user_id := pyStrip (sub.getD "")
      if user_id = "" then none
      else some user_id

/-- Model of the external pickle serializer applied to the broker's error
payload: pickle.dumps of the single-key dictionary mapping the key
"error" to the message. Byte 128 is the PROTO opcode that begins every
protocol-2 pickle; the remainder encodes the message's code points. -/
def pickle_dumps_error (msg : String) : List Nat :=
  128 :: msg.data.map Char.toNat

/-- Model of pickle.loads restricted to the broker's error payloads:
recovers the message stored under the key "error". -/
def pickle_loads_error : List Nat → Option String
  | 128 :: rest => some (String.mk (rest.map Char.ofNat))
  | _ => none

/-- Observable effect of handling one client-facing message in the proxy
loop: a multipart send on the server-facing (backend) socket, a multipart
send on the client-facing (frontend) socket, or a log line with no send at
all. -/
inductive Effect where
  | sendBackend (msg : List Frame) : Effect
  | sendFrontend (msg : List Frame) : Effect
  | logOnly : Effect
deriving DecidableEq

/-- Embedding of RExecBroker._reply_error from broker.py: with no
envelope, only log; otherwise send envelope + empty delimiter + pickled
error payload on the client-facing socket. -/
def reply_error (envelope : List Frame) (message : String) : Effect :=
  if envelope = [] then Effect.logOnly
  else Effect.sendFrontend (envelope ++ [([] : Frame), pickle_dumps_error message])

/-- Embedding of the client-request branch of RExecBroker._proxy_loop.
`auth` gives the auth API's response for each token string (the external
world behind requests.post); `registered` lists the identities currently
connected on the backend ROUTER socket: with ROUTER_MANDATORY set,
send_multipart raises ZMQError exactly when the leading identity frame is
unroutable, which the code catches and converts into the
server-not-available reply. -/
def handle_frontend (auth : String → AuthResponse) (registered : List Frame)
    (frames : List Frame) : Effect :=
  let envelope := (split_envelope frames).1
  let delimiter_index := (split_envelope frames).2.1
  let body := (split_envelope frames).2.2
  if delimiter_index = none ∨ body.length < 3 then
    reply_error envelope "Invalid request framing."
  else
    match utf8Decode? (body.headD []) with
    | none => reply_error envelope "Token is not valid utf-8."
    | some token =>
      match validate_token (auth token) with
      | none => reply_error envelope "Token validation failed."
      | some user_id =>
        let server_id := utf8Encode user_id
        if server_id ∈ registered then
          Effect.sendBackend ([server_id] ++ envelope ++ [([] : Frame)] ++ body.drop 1)
        else reply_error envelope ("Server not available for user " ++ user_id ++ ".")

/-- Embedding of the server-response branch of _proxy_loop: empty
messages are ignored (none); otherwise the first frame (the sending
server's ROUTER identity) is dropped and the remaining frames are the
multipart message sent verbatim on the client-facing socket. -/
def handle_backend (frames : List Frame) : Option (List Frame) :=
  if frames = [] then none
  else some (frames.drop 1)

/-- Byte string for the acknowledgement "OK" sent on the control socket. -/
def OK_ACK : Frame := utf8Encode "OK"

/-- Byte string for the shutdown command b"TERMINATE". -/
def TERMINATE_CMD : Frame := utf8Encode "TERMINATE"

/-- Byte string for the shutdown command b"STOP". -/
def STOP_CMD : Frame := utf8Encode "STOP"

/-- Byte string for the shutdown command b"QUIT". -/
def QUIT_CMD : Frame := utf8Encode "QUIT"

/-- Embedding of the control branch of _proxy_loop for one received
frame: the acknowledgement sent on the control socket, and whether the
loop breaks afterwards (the message byte-equals one of the three shutdown
commands). -/
def handle_control (msg : Frame) : Frame × Bool :=
  (OK_ACK, msg == TERMINATE_CMD || msg == STOP_CMD || msg == QUIT_CMD)

/-- Iterated control handling over a sequence of control frames: each
frame is acknowledged, and the loop breaks right after acknowledging a
shutdown command. Returns the acknowledgements sent and whether the loop
is still running afterwards. -/
def control_loop : List Frame → List Frame × Bool
  | [] => ([], true)
  | m :: rest =>
    if (handle_control m).2 then ([(handle_control m).1], false)
    else ((handle_control m).1 :: (control_loop rest).1, (control_loop rest).2)

/-- The four broker-generated error messages of the catalogue. -/
def errorCatalogue (msg : String) : Prop :=
  msg = "Invalid request framing." ∨ msg = "Token is not valid utf-8." ∨
    msg = "Token validation failed." ∨
    ∃ uid, msg = "Server not available for user " ++ uid ++ "."

/-- Auth world of the spec's scenario: the gateway resolves the token
tok-abc to the subject alice and fails on anything else. -/
def scenarioAuth : String → AuthResponse :=
  fun t =>
    if t = "tok-abc" then AuthResponse.httpResponse 200 (some "alice")
    else AuthResponse.requestException

/-- Step lemma: a leading empty frame is the delimiter at index 0. -/
theorem split_envelope_cons_empty (rest : List Frame) :
    split_envelope (([] : Frame) :: rest) = ([], some 0, rest) := by
  simp [split_envelope]

/-- Step lemma: a non-empty leading frame joins the envelope when a
delimiter occurs further right. -/
theorem split_envelope_cons_of_some (f : Frame) (rest : List Frame) (i : Nat)
    (hf : f ≠ ([] : Frame)) (h : (split_envelope rest).2.1 = some i) :
    split_envelope (f :: rest) =
      (f :: (split_envelope rest).1, some (i + 1), (split_envelope rest).2.2) := by
  rcases hsr : split_envelope rest with ⟨env, di, body⟩
  rw [hsr] at h
  simp only at h
  subst h
  simp [split_envelope, if_neg hf, hsr]

/-- Step lemma: with no delimiter to the right, the whole message is an
unframed body. -/
theorem split_envelope_cons_of_none (f : Frame) (rest : List Frame)
    (hf : f ≠ ([] : Frame)) (h : (split_envelope rest).2.1 = none) :
    split_envelope (f :: rest) = ([], none, f :: rest) := by
  rcases hsr : split_envelope rest with ⟨env, di, body⟩
  rw [hsr] at h
  simp only at h
  subst h
  simp [split_envelope, if_neg hf, hsr]

/-- Frame lists without any empty frame are returned whole as the body. -/
theorem split_envelope_of_no_empty (frames : List Frame) :
    (∀ g ∈ frames, g ≠ ([] : Frame)) → split_envelope frames = ([], none, frames) := by
  induction frames with
  | nil => intro _; rfl
  | cons f rest ih =>
    intro h
    have hf : f ≠ ([] : Frame) := h f (List.mem_cons_self f rest)
    have hrest := ih (fun g hg => h g (List.mem_cons_of_mem f hg))
    exact split_envelope_cons_of_none f rest hf (by rw [hrest])

/-- When index i holds the first empty frame, split_envelope returns the
take-i prefix, the index i, and the suffix past i. -/
theorem split_envelope_of_first_empty (frames : List Frame) (i : Nat) :
    frames[i]? = some ([] : Frame) → (∀ j, j < i → frames[j]? ≠ some ([] : Frame)) →
    split_envelope frames = (frames.take i, some i, frames.drop (i + 1)) := by
  induction frames generalizing i with
  | nil => intro h _; simp at h
  | cons f rest ih =>
    intro h1 h2
    cases i with
    | zero =>
      simp only [List.getElem?_cons_zero, Option.some.injEq] at h1
      subst h1
      simp [split_envelope_cons_empty]
    | succ j =>
      have hf : f ≠ ([] : Frame) := by
        intro hfe
        exact h2 0 (Nat.succ_pos j) (by simp [hfe])
      have h1x : rest[j]? = some ([] : Frame) := by simpa using h1
      have h2x : ∀ k, k < j → rest[k]? ≠ some ([] : Frame) := by
        intro k hk
        have := h2 (k + 1) (Nat.succ_lt_succ hk)
        simpa using this
      have hr := ih j h1x h2x
      have := split_envelope_cons_of_some f rest j hf (by rw [hr])
      rw [this, hr]
      simp [List.take_succ_cons, List.drop_succ_cons]

/-- Round-trip: when an empty frame occurs, the split yields a delimiter
index, an envelope free of empty frames, and pieces that concatenate back
to the original frame list. -/
theorem split_envelope_reconstruct (frames : List Frame) :
    ([] : Frame) ∈ frames →
    ∃ i, (split_envelope frames).2.1 = some i ∧
      ([] : Frame) ∉ (split_envelope frames).1 ∧
      frames[i]? = some ([] : Frame) ∧
      (split_envelope frames).1 ++ [([] : Frame)] ++ (split_envelope frames).2.2 = frames := by
  induction frames with
  | nil => intro h; simp at h
  | cons f rest ih =>
    intro h
    by_cases hf : f = ([] : Frame)
    · subst hf
      refine ⟨0, ?_⟩
      simp [split_envelope_cons_empty]
    · have hrest : ([] : Frame) ∈ rest := by
        rcases List.mem_cons.mp h with h1 | h1
        · exact absurd h1.symm hf
        · exact h1
      obtain ⟨i, hdi, hnm, hgi, hrec⟩ := ih hrest
      have hcons := split_envelope_cons_of_some f rest i hf hdi
      refine ⟨i + 1, ?_, ?_, ?_, ?_⟩
      · rw [hcons]
      · rw [hcons]
        simp only [List.mem_cons, not_or]
        exact ⟨fun he => hf he.symm, hnm⟩
      · simpa using hgi
      · rw [hcons]
        simpa using hrec

/-- An error reply that reaches the client-facing socket decomposes into
the envelope, the delimiter, and the pickled payload of its message. -/
theorem reply_error_sendFrontend {e : List Frame} {msg : String} {m : List Frame}
    (h : reply_error e msg = Effect.sendFrontend m) :
    e ≠ [] ∧ m = e ++ [([] : Frame), pickle_dumps_error msg] := by
  unfold reply_error at h
  split at h
  · cases h
  · rename_i he
    refine ⟨he, ?_⟩
    injection h with h1
    exact h1.symm

/-- An error reply never sends on the server-facing socket. -/
theorem reply_error_ne_sendBackend (e : List Frame) (msg : String) (m : List Frame) :
    reply_error e msg ≠ Effect.sendBackend m := by
  unfold reply_error
  split <;> simp

/-- Branch lemma: missing delimiter or a short body takes the framing
error path. -/
theorem handle_frontend_framing (auth : String → AuthResponse) (reg frames : List Frame)
    (h : (split_envelope frames).2.1 = none ∨ (split_envelope frames).2.2.length < 3) :
    handle_frontend auth reg frames =
      reply_error (split_envelope frames).1 "Invalid request framing." := by
  simp only [handle_frontend]
  rw [if_pos h]

/-- Branch lemma: a token frame that is not valid UTF-8 takes the decode
error path. -/
theorem handle_frontend_decode_fail (auth : String → AuthResponse)
    (reg frames env body : List Frame) (i : Nat)
    (hsplit : split_envelope frames = (env, some i, body))
    (hlen : 3 ≤ body.length)
    (hdec : utf8Decode? (body.headD []) = none) :
    handle_frontend auth reg frames = reply_error env "Token is not valid utf-8." := by
  simp only [handle_frontend, hsplit]
  rw [if_neg (by simp only [not_or]; exact ⟨fun hc => Option.noConfusion hc, by omega⟩)]
  simp only [hdec]

/-- Branch lemma: a failed validation takes the auth error path. -/
theorem handle_frontend_auth_fail (auth : String → AuthResponse)
    (reg frames env body : List Frame) (i : Nat) (tok : String)
    (hsplit : split_envelope frames = (env, some i, body))
    (hlen : 3 ≤ body.length)
    (hdec : utf8Decode? (body.headD []) = some tok)
    (hval : validate_token (auth tok) = none) :
    handle_frontend auth reg frames = reply_error env "Token validation failed." := by
  simp only [handle_frontend, hsplit]
  rw [if_neg (by simp only [not_or]; exact ⟨fun hc => Option.noConfusion hc, by omega⟩)]
  simp only [hdec, hval]

/-- Branch lemma: a validated, routable request is forwarded re-addressed
to the authenticated identity, with the token frame dropped. -/
theorem handle_frontend_forward (auth : String → AuthResponse)
    (reg frames env body : List Frame) (i : Nat) (tok s : String)
    (hsplit : split_envelope frames = (env, some i, body))
    (hlen : 3 ≤ body.length)
    (hdec : utf8Decode? (body.headD []) = some tok)
    (hval : validate_token (auth tok) = some s)
    (hreg : utf8Encode s ∈ reg) :
    handle_frontend auth reg frames =
      Effect.sendBackend ([utf8Encode s] ++ env ++ [([] : Frame)] ++ body.drop 1) := by
  simp only [handle_frontend, hsplit]
  rw [if_neg (by simp only [not_or]; exact ⟨fun hc => Option.noConfusion hc, by omega⟩)]
  simp only [hdec, hval]
  rw [if_pos hreg]

/-- Branch lemma: a validated request whose destination identity is not
registered takes the server-not-available path. -/
theorem handle_frontend_unroutable (auth : String → AuthResponse)
    (reg frames env body : List Frame) (i : Nat) (tok s : String)
    (hsplit : split_envelope frames = (env, some i, body))
    (hlen : 3 ≤ body.length)
    (hdec : utf8Decode? (body.headD []) = some tok)
    (hval : validate_token (auth tok) = some s)
    (hreg : utf8Encode s ∉ reg) :
    handle_frontend auth reg frames =
      reply_error env ("Server not available for user " ++ s ++ ".") := by
  simp only [handle_frontend, hsplit]
  rw [if_neg (by simp only [not_or]; exact ⟨fun hc => Option.noConfusion hc, by omega⟩)]
  simp only [hdec, hval]
  rw [if_neg hreg]

/-- The pickled error payload deserializes back to its message. -/
theorem pickle_roundtrip (msg : String) :
    pickle_loads_error (pickle_dumps_error msg) = some msg := by
  cases msg with
  | mk data =>
    simp [pickle_dumps_error, pickle_loads_error, List.map_map, Function.comp_def,
      Char.ofNat_toNat]

/-- Every client-facing send the frontend handler produces is an error
reply: a non-empty envelope, the delimiter, and one pickled payload whose
message is drawn from the four-message catalogue. -/
theorem handle_frontend_sendFrontend_shape (auth : String → AuthResponse)
    (reg frames m : List Frame)
    (h : handle_frontend auth reg frames = Effect.sendFrontend m) :
    ∃ msg, errorCatalogue msg ∧ (split_envelope frames).1 ≠ [] ∧
      m = (split_envelope frames).1 ++ [([] : Frame), pickle_dumps_error msg] := by
  simp only [handle_frontend] at h
  split at h
  · obtain ⟨hne, hm⟩ := reply_error_sendFrontend h
    exact ⟨_, Or.inl rfl, hne, hm⟩
  · split at h
    · obtain ⟨hne, hm⟩ := reply_error_sendFrontend h
      exact ⟨_, Or.inr (Or.inl rfl), hne, hm⟩
    · split at h
      · obtain ⟨hne, hm⟩ := reply_error_sendFrontend h
        exact ⟨_, Or.inr (Or.inr (Or.inl rfl)), hne, hm⟩
      · split at h
        · cases h
        · obtain ⟨hne, hm⟩ := reply_error_sendFrontend h
          exact ⟨_, Or.inr (Or.inr (Or.inr ⟨_, rfl⟩)), hne, hm⟩

/-- A sequence of non-shutdown control commands is acknowledged one OK per
command and leaves the loop running. -/
theorem control_loop_all_ok (msgs : List Frame)
    (h : ∀ m ∈ msgs, (handle_control m).2 = false) :
    control_loop msgs = (msgs.map (fun _ => OK_ACK), true) := by
  induction msgs with
  | nil => rfl
  | cons m rest ih =>
    have hm : (handle_control m).2 = false := h m (List.mem_cons_self m rest)
    have hrest := ih (fun g hg => h g (List.mem_cons_of_mem m hg))
    simp only [control_loop, hm, Bool.false_eq_true, if_false, hrest, List.map_cons]
    simp [handle_control]

/-- C1: for every well-formed client-facing message (delimiter present,
body of at least 3 frames, body[0] a valid UTF-8 token) whose token
validates to subject s, with s routable on the server-facing socket, the
broker sends on the server-facing endpoint exactly the message
s-encoded-as-UTF-8 + envelope + empty delimiter + body[1:]; the outbound
message is built from those pieces alone, so the token frame body[0] is
never forwarded. -/
theorem claim_c1 (auth : String → AuthResponse) (reg frames env body : List Frame)
    (i : Nat) (tok s : String)
    (hsplit : split_envelope frames = (env, some i, body))
    (hlen : 3 ≤ body.length)
    (hdec : utf8Decode? (body.headD []) = some tok)
    (hval : validate_token (auth tok) = some s)
    (hreg : utf8Encode s ∈ reg) :
    handle_frontend auth reg frames =
      Effect.sendBackend ([utf8Encode s] ++ env ++ [([] : Frame)] ++ body.drop 1) :=
  handle_frontend_forward auth reg frames env body i tok s hsplit hlen hdec hval hreg

/-- Witness for C1: the spec scenario, token tok-abc resolving to alice
with a worker registered as alice, forwards exactly
alice + empty delimiter + do_work + x=1. -/
theorem claim_c1_witness :
    handle_frontend scenarioAuth [utf8Encode "alice"]
        [[], utf8Encode "tok-abc", utf8Encode "do_work", utf8Encode "x=1"] =
      Effect.sendBackend ([utf8Encode "alice"] ++ [] ++ [([] : Frame)] ++
        [utf8Encode "tok-abc", utf8Encode "do_work", utf8Encode "x=1"].drop 1) :=
  claim_c1 scenarioAuth [utf8Encode "alice"]
    [[], utf8Encode "tok-abc", utf8Encode "do_work", utf8Encode "x=1"]
    [] [utf8Encode "tok-abc", utf8Encode "do_work", utf8Encode "x=1"] 0 "tok-abc" "alice"
    (by decide) (by decide) (by decide) (by decide) (by decide)

/-- C2: for every client-facing message with no delimiter frame or with
fewer than 3 frames after the delimiter, the broker takes the
invalid-request-framing reply path: it sends the framing-error payload
addressed by the envelope when the envelope is non-empty, only logs when
the envelope is empty, and never sends anything on the server-facing
endpoint. -/
theorem claim_c2 (auth : String → AuthResponse) (reg frames : List Frame)
    (h : (split_envelope frames).2.1 = none ∨ (split_envelope frames).2.2.length < 3) :
    handle_frontend auth reg frames =
        reply_error (split_envelope frames).1 "Invalid request framing." ∧
      ((split_envelope frames).1 ≠ [] →
        handle_frontend auth reg frames =
          Effect.sendFrontend ((split_envelope frames).1 ++
            [([] : Frame), pickle_dumps_error "Invalid request framing."])) ∧
      ((split_envelope frames).1 = [] →
        handle_frontend auth reg frames = Effect.logOnly) ∧
      ∀ m, handle_frontend auth reg frames ≠ Effect.sendBackend m := by
  have h0 := handle_frontend_framing auth reg frames h
  refine ⟨h0, fun hne => ?_, fun he => ?_, fun m => ?_⟩
  · rw [h0]; simp only [reply_error, if_neg hne]
  · rw [h0]; simp only [reply_error, if_pos he]
  · rw [h0]; exact reply_error_ne_sendBackend _ _ m

/-- Witness for C2: a two-frame message (identity then delimiter, empty
body) gets the framing-error reply addressed to the identity frame. -/
theorem claim_c2_witness :
    handle_frontend scenarioAuth [] [[99], []] =
        reply_error (split_envelope [[99], []]).1 "Invalid request framing." ∧
      ((split_envelope [[99], []]).1 ≠ [] →
        handle_frontend scenarioAuth [] [[99], []] =
          Effect.sendFrontend ((split_envelope [[99], []]).1 ++
            [([] : Frame), pickle_dumps_error "Invalid request framing."])) ∧
      ((split_envelope [[99], []]).1 = [] →
        handle_frontend scenarioAuth [] [[99], []] = Effect.logOnly) ∧
      ∀ m, handle_frontend scenarioAuth [] [[99], []] ≠ Effect.sendBackend m :=
  claim_c2 scenarioAuth [] [[99], []] (by decide)

/-- C3: validate_token returns the uniform failure None on a transport
failure, on any non-200 status, and on a missing or whitespace-only sub
claim; on a 200 response with a non-trivial sub claim it returns the
stripped subject. The model is a total function, so no exception reaches
the caller. When validation fails, the broker replies exactly
"Token validation failed." addressed by the envelope. -/
theorem claim_c3 :
    validate_token AuthResponse.requestException = none ∧
    (∀ (st : Nat) (sub : Option String), st ≠ 200 →
      validate_token (AuthResponse.httpResponse st sub) = none) ∧
    (∀ sub : Option String, pyStrip (sub.getD "") = "" →
      validate_token (AuthResponse.httpResponse 200 sub) = none) ∧
    (∀ sub : Option String, pyStrip (sub.getD "") ≠ "" →
      validate_token (AuthResponse.httpResponse 200 sub) = some (pyStrip (sub.getD ""))) ∧
    (∀ (auth : String → AuthResponse) (reg frames env body : List Frame) (i : Nat)
      (tok : String),
      split_envelope frames = (env, some i, body) → 3 ≤ body.length →
      utf8Decode? (body.headD []) = some tok → validate_token (auth tok) = none →
      handle_frontend auth reg frames = reply_error env "Token validation failed." ∧
      (env ≠ [] → handle_frontend auth reg frames =
        Effect.sendFrontend (env ++
          [([] : Frame), pickle_dumps_error "Token validation failed."]))) := by
  refine ⟨rfl, ?_, ?_, ?_, ?_⟩
  · intro st sub hst
    simp [validate_token, hst]
  · intro sub hsub
    simp [validate_token, hsub]
  · intro sub hsub
    simp [validate_token, hsub]
  · intro auth reg frames env body i tok hsplit hlen hdec hval
    have h0 := handle_frontend_auth_fail auth reg frames env body i tok hsplit hlen hdec hval
    exact ⟨h0, fun hne => by rw [h0]; simp only [reply_error, if_neg hne]⟩

/-- Witness for C3: a 404 status, a whitespace-only subject and a padded
subject on a 200 response, and a broker request whose auth call fails in
transport, which is answered with the token-validation-failed payload. -/
theorem claim_c3_witness :
    validate_token (AuthResponse.httpResponse 404 (some "alice")) = none ∧
    validate_token (AuthResponse.httpResponse 200 (some "   ")) = none ∧
    validate_token (AuthResponse.httpResponse 200 (some " alice ")) =
      some (pyStrip ((some " alice ").getD "")) ∧
    handle_frontend (fun _ => AuthResponse.requestException) []
        [[99], [], [116], [112], [97]] =
      Effect.sendFrontend [[99], ([] : Frame),
        pickle_dumps_error "Token validation failed."] :=
  ⟨claim_c3.2.1 404 (some "alice") (by decide),
   claim_c3.2.2.1 (some "   ") (by decide),
   claim_c3.2.2.2.1 (some " alice ") (by decide),
   (claim_c3.2.2.2.2 (fun _ => AuthResponse.requestException) []
      [[99], [], [116], [112], [97]] [[99]] [[116], [112], [97]] 1 "t"
      (by decide) (by decide) (by decide) (by decide)).2 (by decide)⟩

/-- C4 counterexample: the claim asserts that in the spec scenario, read
with an empty envelope (message empty + tok-abc + do_work + x=1, token
resolving to alice, no worker registered as alice), the client receives a
payload decoding to the server-not-available error. On the code,
_reply_error returns without sending when the envelope is empty, so the
effect at exactly that input is a log line only and no client-facing send
occurs. -/
theorem claim_c4_counterexample :
    handle_frontend scenarioAuth []
        [[], utf8Encode "tok-abc", utf8Encode "do_work", utf8Encode "x=1"] =
      Effect.logOnly ∧
    handle_frontend scenarioAuth []
        [[], utf8Encode "tok-abc", utf8Encode "do_work", utf8Encode "x=1"] ≠
      Effect.sendFrontend [([] : Frame),
        pickle_dumps_error "Server not available for user alice."] :=
  ⟨by decide, by decide⟩

/-- C4 (amended): for every authenticated client request whose forwarding
send fails because no worker is registered under the destination identity,
the broker replies "Server not available for user <identity>." addressed
by the original envelope when that envelope is non-empty; when the
envelope is empty the failure is only logged and no reply is sent. The
reply payload deserializes to the error message. -/
theorem claim_c4_amended (auth : String → AuthResponse) (reg frames env body : List Frame)
    (i : Nat) (tok s : String)
    (hsplit : split_envelope frames = (env, some i, body))
    (hlen : 3 ≤ body.length)
    (hdec : utf8Decode? (body.headD []) = some tok)
    (hval : validate_token (auth tok) = some s)
    (hreg : utf8Encode s ∉ reg) :
    (env ≠ [] → handle_frontend auth reg frames =
      Effect.sendFrontend (env ++ [([] : Frame),
        pickle_dumps_error ("Server not available for user " ++ s ++ ".")])) ∧
    (env = [] → handle_frontend auth reg frames = Effect.logOnly) ∧
    pickle_loads_error
        (pickle_dumps_error ("Server not available for user " ++ s ++ ".")) =
      some ("Server not available for user " ++ s ++ ".") := by
  have h0 := handle_frontend_unroutable auth reg frames env body i tok s hsplit hlen hdec hval hreg
  exact ⟨fun hne => by rw [h0]; simp only [reply_error, if_neg hne],
    fun he => by rw [h0]; simp only [reply_error, if_pos he],
    pickle_roundtrip _⟩

/-- Witness for C4 (amended): the scenario delivered with a client
identity frame cid1 in the envelope; with no worker registered as alice,
the client is sent the payload that decodes to the error message. -/
theorem claim_c4_witness :
    handle_frontend scenarioAuth []
        [utf8Encode "cid1", [], utf8Encode "tok-abc", utf8Encode "do_work",
          utf8Encode "x=1"] =
      Effect.sendFrontend ([utf8Encode "cid1"] ++ [([] : Frame),
        pickle_dumps_error ("Server not available for user " ++ "alice" ++ ".")]) ∧
    pickle_loads_error
        (pickle_dumps_error ("Server not available for user " ++ "alice" ++ ".")) =
      some ("Server not available for user " ++ "alice" ++ ".") :=
  ⟨(claim_c4_amended scenarioAuth []
      [utf8Encode "cid1", [], utf8Encode "tok-abc", utf8Encode "do_work", utf8Encode "x=1"]
      [utf8Encode "cid1"] [utf8Encode "tok-abc", utf8Encode "do_work", utf8Encode "x=1"]
      1 "tok-abc" "alice" (by decide) (by decide) (by decide) (by decide) (by decide)).1
      (by decide),
   (claim_c4_amended scenarioAuth []
      [utf8Encode "cid1", [], utf8Encode "tok-abc", utf8Encode "do_work", utf8Encode "x=1"]
      [utf8Encode "cid1"] [utf8Encode "tok-abc", utf8Encode "do_work", utf8Encode "x=1"]
      1 "tok-abc" "alice" (by decide) (by decide) (by decide) (by decide) (by decide)).2.2⟩

/-- C5: for every non-empty message received on the server-facing
endpoint, the broker discards exactly the first frame and forwards the
remaining frames verbatim (same bytes, same order, nothing truncated) on
the client-facing endpoint; messages with zero frames are ignored. -/
theorem claim_c5 :
    handle_backend [] = none ∧
    ∀ (f : Frame) (rest : List Frame), handle_backend (f :: rest) = some rest := by
  refine ⟨rfl, fun f rest => ?_⟩
  simp [handle_backend]

/-- C6: every control frame is acknowledged with exactly one OK frame; the
loop exits after acknowledging exactly when the frame byte-equals
TERMINATE, STOP or QUIT; and any sequence of other commands leaves the
loop running, each answered with its own OK. -/
theorem claim_c6 (msg : Frame) (msgs : List Frame)
    (h : ∀ m ∈ msgs, m ≠ TERMINATE_CMD ∧ m ≠ STOP_CMD ∧ m ≠ QUIT_CMD) :
    (handle_control msg).1 = OK_ACK ∧
    ((handle_control msg).2 = true ↔
      (msg = TERMINATE_CMD ∨ msg = STOP_CMD ∨ msg = QUIT_CMD)) ∧
    control_loop msgs = (msgs.map (fun _ => OK_ACK), true) := by
  refine ⟨rfl, ?_, ?_⟩
  · simp [handle_control, or_assoc]
  · apply control_loop_all_ok
    intro m hm
    have hc := h m hm
    simp [handle_control, hc.1, hc.2.1, hc.2.2]

/-- Witness for C6: the probe PING is acknowledged without shutdown, and a
run of two non-shutdown commands leaves the loop running with one OK
each. -/
theorem claim_c6_witness :
    (handle_control (utf8Encode "PING")).1 = OK_ACK ∧
    ((handle_control (utf8Encode "PING")).2 = true ↔
      (utf8Encode "PING" = TERMINATE_CMD ∨ utf8Encode "PING" = STOP_CMD ∨
        utf8Encode "PING" = QUIT_CMD)) ∧
    control_loop [utf8Encode "PING", utf8Encode "STATUS"] =
      ([utf8Encode "PING", utf8Encode "STATUS"].map (fun _ => OK_ACK), true) :=
  claim_c6 (utf8Encode "PING") [utf8Encode "PING", utf8Encode "STATUS"] (by decide)

/-- C7: every broker-generated error reply on the client-facing endpoint
is exactly the original envelope frames, one empty delimiter frame, and
one payload frame that deserializes to the single-key error structure,
with the message drawn from the four-message catalogue; with no envelope,
nothing is sent and the failure is only logged. -/
theorem claim_c7 :
    (∀ (env : List Frame) (msg : String), env ≠ [] →
      reply_error env msg =
        Effect.sendFrontend (env ++ [([] : Frame), pickle_dumps_error msg])) ∧
    (∀ msg : String, reply_error [] msg = Effect.logOnly) ∧
    (∀ msg : String, pickle_loads_error (pickle_dumps_error msg) = some msg) ∧
    (∀ (auth : String → AuthResponse) (reg frames m : List Frame),
      handle_frontend auth reg frames = Effect.sendFrontend m →
      ∃ msg, errorCatalogue msg ∧ (split_envelope frames).1 ≠ [] ∧
        m = (split_envelope frames).1 ++ [([] : Frame), pickle_dumps_error msg]) := by
  refine ⟨?_, ?_, pickle_roundtrip, handle_frontend_sendFrontend_shape⟩
  · intro env msg hne
    simp only [reply_error, if_neg hne]
  · intro msg
    simp [reply_error]

/-- Witness for C7: a concrete error reply has the envelope + delimiter +
payload shape, and a concrete client-facing send of the frontend handler
decomposes into a catalogue message. -/
theorem claim_c7_witness :
    reply_error [[99]] "Token validation failed." =
      Effect.sendFrontend
        ([[99]] ++ [([] : Frame), pickle_dumps_error "Token validation failed."]) ∧
    ∃ msg, errorCatalogue msg ∧ (split_envelope [[98], []]).1 ≠ [] ∧
      [[98], ([] : Frame), pickle_dumps_error "Invalid request framing."] =
        (split_envelope [[98], []]).1 ++ [([] : Frame), pickle_dumps_error msg] :=
  ⟨claim_c7.1 [[99]] "Token validation failed." (by decide),
   claim_c7.2.2.2 scenarioAuth [] [[98], []]
     [[98], ([] : Frame), pickle_dumps_error "Invalid request framing."] (by decide)⟩

/-- C8: for every client-facing message that passes framing validation
but whose body[0] frame is not valid UTF-8, the broker replies exactly
"Token is not valid utf-8." addressed by the envelope, behaves
identically under any auth world (so the Auth Gateway is never
consulted), and forwards nothing to any server. -/
theorem claim_c8 (auth auth2 : String → AuthResponse) (reg frames env body : List Frame)
    (i : Nat)
    (hsplit : split_envelope frames = (env, some i, body))
    (hlen : 3 ≤ body.length)
    (hdec : utf8Decode? (body.headD []) = none) :
    handle_frontend auth reg frames = reply_error env "Token is not valid utf-8." ∧
    handle_frontend auth reg frames = handle_frontend auth2 reg frames ∧
    ∀ m, handle_frontend auth reg frames ≠ Effect.sendBackend m := by
  have h1 := handle_frontend_decode_fail auth reg frames env body i hsplit hlen hdec
  have h2 := handle_frontend_decode_fail auth2 reg frames env body i hsplit hlen hdec
  exact ⟨h1, by rw [h1, h2],
    fun m => by rw [h1]; exact reply_error_ne_sendBackend _ _ m⟩

/-- Witness for C8: the spec scenario cid1 + delimiter + invalid bytes
255 254 + two payload frames is answered with the
token-is-not-valid-utf-8 reply addressed to cid1. -/
theorem claim_c8_witness :
    handle_frontend scenarioAuth []
        [utf8Encode "cid1", [], [255, 254], utf8Encode "p", utf8Encode "a"] =
      reply_error [utf8Encode "cid1"] "Token is not valid utf-8." ∧
    handle_frontend scenarioAuth []
        [utf8Encode "cid1", [], [255, 254], utf8Encode "p", utf8Encode "a"] =
      handle_frontend (fun _ => AuthResponse.requestException) []
        [utf8Encode "cid1", [], [255, 254], utf8Encode "p", utf8Encode "a"] ∧
    ∀ m, handle_frontend scenarioAuth []
        [utf8Encode "cid1", [], [255, 254], utf8Encode "p", utf8Encode "a"] ≠
      Effect.sendBackend m :=
  claim_c8 scenarioAuth (fun _ => AuthResponse.requestException) []
    [utf8Encode "cid1", [], [255, 254], utf8Encode "p", utf8Encode "a"]
    [utf8Encode "cid1"] [[255, 254], utf8Encode "p", utf8Encode "a"] 1
    (by decide) (by decide) (by decide)

/-- C9: split_envelope returns the frames before the first zero-length
frame, its index, and the frames after it; with no zero-length frame it
returns an empty envelope, no index, and the whole frame list as body. -/
theorem claim_c9 (frames : List Frame) (i : Nat) :
    ((frames[i]? = some ([] : Frame) ∧
        ∀ j, j < i → frames[j]? ≠ some ([] : Frame)) →
      split_envelope frames = (frames.take i, some i, frames.drop (i + 1))) ∧
    ((∀ g ∈ frames, g ≠ ([] : Frame)) → split_envelope frames = ([], none, frames)) :=
  ⟨fun h => split_envelope_of_first_empty frames i h.1 h.2,
   fun h => split_envelope_of_no_empty frames h⟩

/-- Witness for C9: a three-frame list with its delimiter at index 1, and
a two-frame list with no delimiter at all. -/
theorem claim_c9_witness :
    split_envelope [[1], [], [2]] =
      ([[1], [], [2]].take 1, some 1, [[1], [], [2]].drop 2) ∧
    split_envelope [[3], [4]] = ([], none, [[3], [4]]) :=
  ⟨(claim_c9 [[1], [], [2]] 1).1 (by decide),
   (claim_c9 [[3], [4]] 0).2 (by decide)⟩

/-- C10: for every frame list containing a zero-length frame,
split_envelope returns a delimiter index holding a zero-length frame, an
envelope with no zero-length frame, and pieces that concatenate as
envelope + delimiter + body back to the original list. -/
theorem claim_c10 (frames : List Frame) (h : ([] : Frame) ∈ frames) :
    ∃ i, (split_envelope frames).2.1 = some i ∧
      ([] : Frame) ∉ (split_envelope frames).1 ∧
      frames[i]? = some ([] : Frame) ∧
      (split_envelope frames).1 ++ [([] : Frame)] ++ (split_envelope frames).2.2 =
        frames :=
  split_envelope_reconstruct frames h

/-- Witness for C10: the round-trip at a concrete three-frame list with
its delimiter in the middle. -/
theorem claim_c10_witness :
    ∃ i, (split_envelope [[5], [], [6]]).2.1 = some i ∧
      ([] : Frame) ∉ (split_envelope [[5], [], [6]]).1 ∧
      [[5], [], [6]][i]? = some ([] : Frame) ∧
      (split_envelope [[5], [], [6]]).1 ++ [([] : Frame)] ++
        (split_envelope [[5], [], [6]]).2.2 = [[5], [], [6]] :=
  claim_c10 [[5], [], [6]] (by decide)
